import Mathlib

/-!
Verification of the flood-risk analysis core of the Morocco dams project
(`src/flood_risk_analyzer.py`, class `FloodRiskAnalyzer`).

Python floats are embedded as rationals (ℚ): every threshold in the source
is an integer literal, so the comparison behaviour at and around each
boundary is identical. A remote DEM read that can fail is embedded as an
explicit outcome value; the catch-all `except` blocks of the source, which
log and return `None`, become total functions into `Option`/`Except`.
-/

set_option autoImplicit false

namespace FloodRisk

/-- Outcome of reading the DEM raster at one point inside
`FloodRiskAnalyzer.get_elevation`: a pixel value, the no-data sentinel
(`elevation == src.nodata`), or any exception raised by the remote read
(network, format, out-of-extent index). -/
inductive FetchOutcome where
  | value (v : ℚ)
  | nodata
  | failure (msg : String)
deriving DecidableEq

/-- The analyzer, reduced to what the embedded code observes: the result of
the point DEM read at each coordinate pair (the `dem_url` raster accessed
through rasterio in `__init__`/`get_elevation`). -/
structure FloodRiskAnalyzer where
  dem : ℚ → ℚ → FetchOutcome

/-- `FloodRiskAnalyzer.get_elevation` (src lines 33-62): returns the pixel
value, `None` when the pixel equals the no-data sentinel, and `None` from
the catch-all `except` block when the read fails. -/
def get_elevation (an : FloodRiskAnalyzer) (lon lat : ℚ) : Option ℚ :=
  match an.dem lon lat with
  | .value v => some v
  | .nodata => none
  | .failure _ => none

/-- Risk level strings of the source: CRITIQUE, ÉLEVÉ, MODÉRÉ, FAIBLE. -/
inductive RiskLevel where
  | CRITIQUE
  | ELEVE
  | MODERE
  | FAIBLE
deriving DecidableEq

/-- The dict returned by `calculate_flood_risk_score` on success, with the
`details` sub-dict and `coordinates` flattened into fields. -/
structure RiskAssessment where
  score : ℕ
  risk_level : RiskLevel
  color : String
  altitude_m : ℚ
  altitude_score : ℕ
  distance_oued_m : ℚ
  distance_score : ℕ
  pluie_24h_mm : ℚ
  pluie_score : ℕ
  lon : ℚ
  lat : ℚ
deriving DecidableEq

/-- Altitude factor of `calculate_flood_risk_score` (src lines 150-158). -/
def altitude_score (elevation : ℚ) : ℕ :=
  if elevation < 50 then 40
  else if elevation < 100 then 30
  else if elevation < 200 then 15
  else 5

/-- Waterway-proximity factor of `calculate_flood_risk_score`
(src lines 164-174). -/
def distance_score (waterway_distance : ℚ) : ℕ :=
  if waterway_distance < 100 then 35
  else if waterway_distance < 300 then 25
  else if waterway_distance < 500 then 15
  else if waterway_distance < 1000 then 5
  else 0

/-- Precipitation factor of `calculate_flood_risk_score`
(src lines 180-190). -/
def rain_score (precipitation_24h : ℚ) : ℕ :=
  if precipitation_24h > 80 then 25
  else if precipitation_24h > 50 then 20
  else if precipitation_24h > 30 then 12
  else if precipitation_24h > 10 then 5
  else 0

/-- Risk level and colour chain of `calculate_flood_risk_score`
(src lines 196-208). -/
def risk_level_color (score : ℕ) : RiskLevel × String :=
  if score ≥ 70 then (RiskLevel.CRITIQUE, "#D32F2F")
  else if score ≥ 40 then (RiskLevel.ELEVE, "#F57C00")
  else if score ≥ 20 then (RiskLevel.MODERE, "#FBC02D")
  else (RiskLevel.FAIBLE, "#388E3C")

/-- The successful branch of `calculate_flood_risk_score` (src lines
146-216): sub-scores, their sum, level/colour, and the echoed inputs. -/
def score_point (elevation waterway_distance precipitation_24h lon lat : ℚ) :
    RiskAssessment :=
  let a := altitude_score elevation
  let d := distance_score waterway_distance
  let r := rain_score precipitation_24h
  let s := a + d + r
  let lc := risk_level_color s
  { score := s
    risk_level := lc.1
    color := lc.2
    altitude_m := elevation
    altitude_score := a
    distance_oued_m := waterway_distance
    distance_score := d
    pluie_24h_mm := precipitation_24h
    pluie_score := r
    lon := lon
    lat := lat }

/-- `FloodRiskAnalyzer.calculate_flood_risk_score` (src lines 128-216):
fetches the elevation and, when it is unavailable, returns the error dict
whose single entry maps the key `error` to the message
`Altitude non disponible`; otherwise the assessment. -/
def calculate_flood_risk_score (an : FloodRiskAnalyzer)
    (lon lat waterway_distance precipitation_24h : ℚ) :
    Except String RiskAssessment :=
  match get_elevation an lon lat with
  | none => .error "Altitude non disponible"
  | some elevation =>
      .ok (score_point elevation waterway_distance precipitation_24h lon lat)

/-! Spec-side bucket tables of spec §4.2, written exactly as the table rows
state them (mutually exclusive closed intervals), to be compared with the
chained conditionals of the source. -/

/-- Spec §4.2 altitude table: `< 50 → 40`, `[50,100) → 30`,
`[100,200) → 15`, `≥ 200 → 5`. -/
def altitude_buckets_spec (e : ℚ) : ℕ :=
  if e < 50 then 40
  else if 50 ≤ e ∧ e < 100 then 30
  else if 100 ≤ e ∧ e < 200 then 15
  else 5

/-- Spec §4.2 waterway-distance table: `< 100 → 35`, `[100,300) → 25`,
`[300,500) → 15`, `[500,1000) → 5`, `≥ 1000 → 0`. -/
def distance_buckets_spec (d : ℚ) : ℕ :=
  if d < 100 then 35
  else if 100 ≤ d ∧ d < 300 then 25
  else if 300 ≤ d ∧ d < 500 then 15
  else if 500 ≤ d ∧ d < 1000 then 5
  else 0

/-- Spec §4.2 precipitation table: `> 80 → 25`, `(50,80] → 20`,
`(30,50] → 12`, `(10,30] → 5`, `≤ 10 → 0`. -/
def rain_buckets_spec (r : ℚ) : ℕ :=
  if r > 80 then 25
  else if 50 < r ∧ r ≤ 80 then 20
  else if 30 < r ∧ r ≤ 50 then 12
  else if 10 < r ∧ r ≤ 30 then 5
  else 0

/-! Bounds on the three sub-score factors, read off their conditionals. -/

lemma altitude_score_le (e : ℚ) : altitude_score e ≤ 40 := by
  unfold altitude_score; split_ifs <;> norm_num

lemma altitude_score_ge (e : ℚ) : 5 ≤ altitude_score e := by
  unfold altitude_score; split_ifs <;> norm_num

lemma distance_score_le (d : ℚ) : distance_score d ≤ 35 := by
  unfold distance_score; split_ifs <;> norm_num

lemma rain_score_le (r : ℚ) : rain_score r ≤ 25 := by
  unfold rain_score; split_ifs <;> norm_num

/-- Case analysis of the level/colour chain: the four tiers are decided
top-down by inclusive lower bounds 70, 40, 20. -/
lemma risk_level_color_cases (s : ℕ) :
    (70 ≤ s → risk_level_color s = (RiskLevel.CRITIQUE, "#D32F2F")) ∧
    (40 ≤ s → s < 70 → risk_level_color s = (RiskLevel.ELEVE, "#F57C00")) ∧
    (20 ≤ s → s < 40 → risk_level_color s = (RiskLevel.MODERE, "#FBC02D")) ∧
    (s < 20 → risk_level_color s = (RiskLevel.FAIBLE, "#388E3C")) := by
  unfold risk_level_color
  split_ifs with h1 h2 h3 <;>
    refine ⟨fun a => ?_, fun a b => ?_, fun a b => ?_, fun a => ?_⟩ <;>
    first | rfl | (exfalso; omega)

/-- A FAIBLE level can only come from a total strictly below 20. -/
lemma faible_imp_lt_20 (s : ℕ) :
    (risk_level_color s).1 = RiskLevel.FAIBLE → s < 20 := by
  intro h
  unfold risk_level_color at h
  split_ifs at h
  all_goals simp_all

/-- C1: for every assessment returned by `calculate_flood_risk_score`, the
total score is the sum of the altitude, distance and rain sub-scores, and
that total lies in [0, 100] (the score is a natural number, so 0 is a
lower bound by type). -/
theorem score_eq_sum_of_subscores_and_bounded :
    ∀ (an : FloodRiskAnalyzer) (lon lat d r : ℚ) (ra : RiskAssessment),
      calculate_flood_risk_score an lon lat d r = Except.ok ra →
      ra.score = ra.altitude_score + ra.distance_score + ra.pluie_score ∧
        ra.score ≤ 100 := by
  intro an lon lat d r ra h
  cases he : get_elevation an lon lat with
  | none => simp [calculate_flood_risk_score, he] at h
  | some e =>
      simp only [calculate_flood_risk_score, he, Except.ok.injEq] at h
      subst h
      refine ⟨rfl, ?_⟩
      have h1 := altitude_score_le e
      have h2 := distance_score_le d
      have h3 := rain_score_le r
      simp only [score_point]
      omega

/-- Witness for C1 at elevation 30, distance 150, rain 65 (the spec §8
end-to-end example). -/
theorem score_eq_sum_of_subscores_and_bounded_witness :
    (score_point 30 150 65 0 0).score =
        (score_point 30 150 65 0 0).altitude_score +
          (score_point 30 150 65 0 0).distance_score +
          (score_point 30 150 65 0 0).pluie_score ∧
      (score_point 30 150 65 0 0).score ≤ 100 :=
  score_eq_sum_of_subscores_and_bounded ⟨fun _ _ => FetchOutcome.value 30⟩
    0 0 150 65 (score_point 30 150 65 0 0) rfl

/-- C2: each chained conditional of the source computes exactly the bucket
table of spec §4.2 (stated with explicit mutually exclusive intervals), and
the boundary points 50, 100, 200 / 100, 300, 500, 1000 / 10, 30, 50, 80
fall in the stated buckets. -/
theorem subscore_tables_boundary_exact :
    (∀ e : ℚ, altitude_score e = altitude_buckets_spec e) ∧
    (∀ d : ℚ, distance_score d = distance_buckets_spec d) ∧
    (∀ r : ℚ, rain_score r = rain_buckets_spec r) ∧
    altitude_score 50 = 30 ∧ altitude_score 100 = 15 ∧ altitude_score 200 = 5 ∧
    distance_score 100 = 25 ∧ distance_score 300 = 15 ∧
    distance_score 500 = 5 ∧ distance_score 1000 = 0 ∧
    rain_score 10 = 0 ∧ rain_score 30 = 5 ∧ rain_score 50 = 12 ∧
    rain_score 80 = 20 := by
  refine ⟨?_, ?_, ?_, ?_, ?_, ?_, ?_, ?_, ?_, ?_, ?_, ?_, ?_, ?_⟩
  · intro e
    unfold altitude_score altitude_buckets_spec
    split_ifs <;> simp_all [not_lt]
  · intro d
    unfold distance_score distance_buckets_spec
    split_ifs <;> simp_all [not_lt]
  · intro r
    unfold rain_score rain_buckets_spec
    split_ifs <;> simp_all [not_lt]
  all_goals decide

/-- C3: the risk level and colour of every assessment are
`risk_level_color` of its total score, and that chain assigns CRITIQUE,
ÉLEVÉ, MODÉRÉ, FAIBLE top-down by inclusive lower bounds 70, 40, 20 —
in particular at the totals 69, 70, 39, 40, 19, 20. -/
theorem risk_category_thresholds :
    (∀ e d r lon lat : ℚ,
        (score_point e d r lon lat).risk_level =
            (risk_level_color (score_point e d r lon lat).score).1 ∧
          (score_point e d r lon lat).color =
            (risk_level_color (score_point e d r lon lat).score).2) ∧
    (∀ s : ℕ,
        (70 ≤ s → risk_level_color s = (RiskLevel.CRITIQUE, "#D32F2F")) ∧
        (40 ≤ s → s < 70 → risk_level_color s = (RiskLevel.ELEVE, "#F57C00")) ∧
        (20 ≤ s → s < 40 → risk_level_color s = (RiskLevel.MODERE, "#FBC02D")) ∧
        (s < 20 → risk_level_color s = (RiskLevel.FAIBLE, "#388E3C"))) ∧
    risk_level_color 69 = (RiskLevel.ELEVE, "#F57C00") ∧
    risk_level_color 70 = (RiskLevel.CRITIQUE, "#D32F2F") ∧
    risk_level_color 39 = (RiskLevel.MODERE, "#FBC02D") ∧
    risk_level_color 40 = (RiskLevel.ELEVE, "#F57C00") ∧
    risk_level_color 19 = (RiskLevel.FAIBLE, "#388E3C") ∧
    risk_level_color 20 = (RiskLevel.MODERE, "#FBC02D") := by
  refine ⟨fun e d r lon lat => ⟨rfl, rfl⟩, risk_level_color_cases,
    ?_, ?_, ?_, ?_, ?_, ?_⟩ <;> decide

/-- Witness for C3 at the total 85 (= 40 + 25 + 20, the spec §8 example),
which falls in the CRITIQUE tier. -/
theorem risk_category_thresholds_witness :
    risk_level_color 85 = (RiskLevel.CRITIQUE, "#D32F2F") :=
  (risk_category_thresholds.2.1 85).1 (by norm_num)

/-- C4: whenever the DEM read reports the no-data sentinel or fails, the
entry point returns the explicit error value `Altitude non disponible`
instead of an assessment; moreover that is the only error the function can
return (it is total, so no exception reaches the caller). -/
theorem assess_point_unavailable :
    ∀ (an : FloodRiskAnalyzer) (lon lat d r : ℚ),
      ((an.dem lon lat = FetchOutcome.nodata ∨
          ∃ m, an.dem lon lat = FetchOutcome.failure m) →
        calculate_flood_risk_score an lon lat d r =
          Except.error "Altitude non disponible") ∧
      ∀ msg, calculate_flood_risk_score an lon lat d r = Except.error msg →
        msg = "Altitude non disponible" := by
  intro an lon lat d r
  constructor
  · rintro (h | ⟨m, h⟩) <;> simp [calculate_flood_risk_score, get_elevation, h]
  · intro msg h
    cases he : get_elevation an lon lat with
    | none =>
        simp only [calculate_flood_risk_score, he, Except.error.injEq] at h
        exact h.symm
    | some e => simp [calculate_flood_risk_score, he] at h

/-- Witness for C4 with a DEM that reports no-data everywhere. -/
theorem assess_point_unavailable_witness :
    calculate_flood_risk_score ⟨fun _ _ => FetchOutcome.nodata⟩ 0 0 500 65 =
      Except.error "Altitude non disponible" :=
  (assess_point_unavailable ⟨fun _ _ => FetchOutcome.nodata⟩ 0 0 500 65).1
    (Or.inl rfl)

/-- C9: the altitude factor never contributes less than 5, so every
returned score lies in [5, 100]; a total of 0 is unreachable, and a FAIBLE
assessment always carries a score in [5, 19]. -/
theorem score_at_least_five :
    ∀ (an : FloodRiskAnalyzer) (lon lat d r : ℚ) (ra : RiskAssessment),
      calculate_flood_risk_score an lon lat d r = Except.ok ra →
      5 ≤ ra.score ∧ ra.score ≤ 100 ∧ ra.score ≠ 0 ∧
        (ra.risk_level = RiskLevel.FAIBLE →
          5 ≤ ra.score ∧ ra.score ≤ 19) := by
  intro an lon lat d r ra h
  cases he : get_elevation an lon lat with
  | none => simp [calculate_flood_risk_score, he] at h
  | some e =>
      simp only [calculate_flood_risk_score, he, Except.ok.injEq] at h
      subst h
      have h1 := altitude_score_le e
      have h2 := distance_score_le d
      have h3 := rain_score_le r
      have h4 := altitude_score_ge e
      have h5 := faible_imp_lt_20
        (altitude_score e + distance_score d + rain_score r)
      simp only [score_point] at h5 ⊢
      refine ⟨by omega, by omega, by omega, fun hf => ?_⟩
      have := h5 hf
      omega

/-- Witness for C9 at elevation 250, distance 1200, rain 5 (the spec §8
FAIBLE example, total 5). -/
theorem score_at_least_five_witness :
    5 ≤ (score_point 250 1200 5 0 0).score ∧
      (score_point 250 1200 5 0 0).score ≤ 100 ∧
      (score_point 250 1200 5 0 0).score ≠ 0 ∧
      ((score_point 250 1200 5 0 0).risk_level = RiskLevel.FAIBLE →
        5 ≤ (score_point 250 1200 5 0 0).score ∧
          (score_point 250 1200 5 0 0).score ≤ 19) :=
  score_at_least_five ⟨fun _ _ => FetchOutcome.value 250⟩ 0 0 1200 5
    (score_point 250 1200 5 0 0) rfl

/-! Zone extraction and zone statistics (`get_elevation_zone`,
`identify_low_zones`). Grids are flattened to a list of cells: every
statistic the source computes depends only on the collection of cell
values, not on the 2D layout. -/

/-- One cell of an elevation grid; `none` models the NaN sentinel written
by `np.where(elevation_data == src.nodata, np.nan, elevation_data)`. -/
abbrev Cell := Option ℚ

/-- Outcome of the windowed raster read inside `get_elevation_zone`: the
fetched grid (no-data already replaced by NaN) or any exception raised by
`from_bounds`/`src.read` (degenerate window, network, format). -/
inductive ZoneFetchOutcome where
  | grid (g : List Cell)
  | failure (msg : String)

/-- Bounding box (min_lon, min_lat, max_lon, max_lat) as passed to
`get_elevation_zone` and `identify_low_zones`. -/
structure BBox where
  min_lon : ℚ
  min_lat : ℚ
  max_lon : ℚ
  max_lat : ℚ
deriving DecidableEq

/-- Well-formedness demanded by the spec data model: min < max on both
axes. The source never checks this. -/
def BBox.valid (b : BBox) : Prop :=
  b.min_lon < b.max_lon ∧ b.min_lat < b.max_lat

instance (b : BBox) : Decidable b.valid :=
  inferInstanceAs (Decidable (_ ∧ _))

/-- `FloodRiskAnalyzer.get_elevation_zone` (src lines 64-94), parametrised
by the underlying windowed read of the remote raster: the body performs no
bounding-box validation, and its catch-all `except` turns every failure
into `None`. -/
def get_elevation_zone (read : BBox → ZoneFetchOutcome) (bbox : BBox) :
    Option (List Cell) :=
  match read bbox with
  | .grid g => some g
  | .failure _ => none

/-- numpy comparison semantics for `elevation_data < threshold`: a NaN
cell compares false, so it is never counted as a low zone. -/
def np_lt (c : Cell) (t : ℚ) : Bool :=
  match c with
  | none => false
  | some v => decide (v < t)

/-- `np.nanmin`: minimum over non-NaN cells, NaN when there are none. -/
def nanmin : List Cell → Option ℚ
  | [] => none
  | none :: rest => nanmin rest
  | some v :: rest =>
      match nanmin rest with
      | none => some v
      | some m => some (min v m)

/-- `np.nanmax`: maximum over non-NaN cells, NaN when there are none. -/
def nanmax : List Cell → Option ℚ
  | [] => none
  | none :: rest => nanmax rest
  | some v :: rest =>
      match nanmax rest with
      | none => some v
      | some m => some (max v m)

/-- Sum over non-NaN cells (the numerator inside `np.nanmean`). -/
def nansum : List Cell → ℚ
  | [] => 0
  | none :: rest => nansum rest
  | some v :: rest => v + nansum rest

/-- Count of non-NaN cells (the denominator inside `np.nanmean`). -/
def valid_count : List Cell → ℕ
  | [] => 0
  | none :: rest => valid_count rest
  | some _ :: rest => valid_count rest + 1

/-- `np.nanmean`: mean over non-NaN cells, NaN when there are none. -/
def nanmean (g : List Cell) : Option ℚ :=
  if valid_count g = 0 then none else some (nansum g / (valid_count g : ℚ))

/-- The stats dict built by `identify_low_zones` (src lines 115-122).
`min/max/mean` are `Option ℚ` because `np.nanmin`/`np.nanmax`/`np.nanmean`
yield NaN on a grid with no valid cell. -/
structure ZoneStats where
  total_pixels : ℕ
  low_zone_pixels : ℕ
  low_zone_percentage : ℚ
  min_elevation : Option ℚ
  max_elevation : Option ℚ
  mean_elevation : Option ℚ
deriving DecidableEq

/-- Statistics block of `FloodRiskAnalyzer.identify_low_zones` (src lines
107-126), applied to an already fetched grid. On a zero-size grid
`np.nanmin` raises `ValueError` (there is no surrounding handler), modelled
as the `Except.error` branch; on a non-empty grid the stats dict is
returned — with NaN (`none`) min/max/mean when every cell is NaN. -/
def identify_low_zones (grid : List Cell) (threshold : ℚ) :
    Except String ZoneStats :=
  if grid.length = 0 then
    Except.error "zero-size array to reduction operation fmin which has no identity"
  else
    Except.ok
      { total_pixels := grid.length
        low_zone_pixels := (grid.filter (fun c => np_lt c threshold)).length
        low_zone_percentage :=
          ((grid.filter (fun c => np_lt c threshold)).length : ℚ) /
            (grid.length : ℚ) * 100
        min_elevation := nanmin grid
        max_elevation := nanmax grid
        mean_elevation := nanmean grid }

/-- The non-NaN cells of a grid, in order (spec-side view used to state
NaN-aware aggregation). -/
def valid_cells (g : List Cell) : List ℚ := g.filterMap id

/-- Low-zone proportion among the valid (non-NaN) cells only — the
quantity the spec compares `low_zone_percentage` against. -/
def valid_low_proportion (g : List Cell) (t : ℚ) : ℚ :=
  100 * (((valid_cells g).filter (fun v => decide (v < t))).length : ℚ) /
    ((valid_cells g).length : ℚ)

/-! Relating the NaN-aware reductions to aggregation over `valid_cells`. -/

lemma valid_cells_nil : valid_cells [] = [] := rfl

lemma valid_cells_cons_none (rest : List Cell) :
    valid_cells (none :: rest) = valid_cells rest := rfl

lemma valid_cells_cons_some (v : ℚ) (rest : List Cell) :
    valid_cells (some v :: rest) = v :: valid_cells rest := rfl

lemma valid_count_eq (g : List Cell) : valid_count g = (valid_cells g).length := by
  induction g with
  | nil => rfl
  | cons c rest ih =>
      cases c <;>
        simp [valid_count, valid_cells_cons_none, valid_cells_cons_some, ih]

lemma nansum_eq (g : List Cell) : nansum g = (valid_cells g).sum := by
  induction g with
  | nil => rfl
  | cons c rest ih =>
      cases c <;>
        simp [nansum, valid_cells_cons_none, valid_cells_cons_some, ih]

lemma foldl_min_comm (vs : List ℚ) (a b : ℚ) :
    min a (vs.foldl min b) = vs.foldl min (min a b) := by
  induction vs generalizing b with
  | nil => rfl
  | cons c vs ih => simp only [List.foldl_cons, ih, min_assoc]

lemma foldl_max_comm (vs : List ℚ) (a b : ℚ) :
    max a (vs.foldl max b) = vs.foldl max (max a b) := by
  induction vs generalizing b with
  | nil => rfl
  | cons c vs ih => simp only [List.foldl_cons, ih, max_assoc]

lemma nanmin_eq (g : List Cell) : nanmin g = (valid_cells g).min? := by
  induction g with
  | nil => rfl
  | cons c rest ih =>
      cases c with
      | none => rw [valid_cells_cons_none]; exact ih
      | some v =>
          rw [valid_cells_cons_some]
          cases hv : valid_cells rest with
          | nil => rw [nanmin, ih, hv]; rfl
          | cons w ws =>
              rw [nanmin, ih, hv]
              show some (min v (ws.foldl min w)) = (v :: w :: ws).min?
              rw [foldl_min_comm]
              rfl

lemma nanmax_eq (g : List Cell) : nanmax g = (valid_cells g).max? := by
  induction g with
  | nil => rfl
  | cons c rest ih =>
      cases c with
      | none => rw [valid_cells_cons_none]; exact ih
      | some v =>
          rw [valid_cells_cons_some]
          cases hv : valid_cells rest with
          | nil => rw [nanmax, ih, hv]; rfl
          | cons w ws =>
              rw [nanmax, ih, hv]
              show some (max v (ws.foldl max w)) = (v :: w :: ws).max?
              rw [foldl_max_comm]
              rfl

lemma low_count_eq (g : List Cell) (t : ℚ) :
    (g.filter (fun c => np_lt c t)).length =
      ((valid_cells g).filter (fun v => decide (v < t))).length := by
  induction g with
  | nil => rfl
  | cons c rest ih =>
      cases c with
      | none =>
          rw [valid_cells_cons_none]
          simpa [np_lt] using ih
      | some v =>
          rw [valid_cells_cons_some]
          have hnp : np_lt (some v) t = decide (v < t) := rfl
          by_cases hv : v < t <;>
            simp [List.filter_cons, hnp, hv, ih]

lemma valid_cells_length_le (g : List Cell) :
    (valid_cells g).length ≤ g.length := by
  induction g with
  | nil => exact Nat.le_refl 0
  | cons c rest ih =>
      cases c with
      | none =>
          rw [valid_cells_cons_none]
          exact Nat.le_succ_of_le ih
      | some v =>
          rw [valid_cells_cons_some]
          simpa using ih

lemma valid_cells_length_eq (g : List Cell) (h : (none : Cell) ∉ g) :
    (valid_cells g).length = g.length := by
  induction g with
  | nil => rfl
  | cons c rest ih =>
      cases c with
      | none => exact absurd (List.mem_cons_self _ _) h
      | some v =>
          rw [valid_cells_cons_some]
          have h' : (none : Cell) ∉ rest := fun hr => h (List.mem_cons_of_mem _ hr)
          simp [ih h']

/-- With no NaN cell in the grid, the reported percentage coincides with
the proportion among valid cells. -/
lemma no_nan_percentage_eq (g : List Cell) (t : ℚ)
    (h : (none : Cell) ∉ g) :
    ((g.filter (fun c => np_lt c t)).length : ℚ) / (g.length : ℚ) * 100 =
      valid_low_proportion g t := by
  have hL := low_count_eq g t
  have hlen := valid_cells_length_eq g h
  unfold valid_low_proportion
  rw [hL, hlen]
  ring

lemma valid_cells_length_lt (g : List Cell) (hn : (none : Cell) ∈ g) :
    (valid_cells g).length < g.length := by
  induction g with
  | nil => cases hn
  | cons c rest ih =>
      cases c with
      | none =>
          rw [valid_cells_cons_none]
          exact Nat.lt_succ_of_le (valid_cells_length_le rest)
      | some v =>
          rw [valid_cells_cons_some]
          have hn' : (none : Cell) ∈ rest := by
            cases hn with
            | tail _ h => exact h
          simpa using ih hn'

/-- C8: the stats record of a successful `identify_low_zones` call counts
every cell in `total_pixels` but restricts the low count and the
min/max/mean reductions to the non-NaN cells. -/
theorem zone_stats_nan_aware :
    ∀ (grid : List Cell) (t : ℚ) (stats : ZoneStats),
      identify_low_zones grid t = Except.ok stats →
      stats.total_pixels = grid.length ∧
      stats.low_zone_pixels =
        ((valid_cells grid).filter (fun v => decide (v < t))).length ∧
      stats.min_elevation = (valid_cells grid).min? ∧
      stats.max_elevation = (valid_cells grid).max? ∧
      stats.mean_elevation =
        (if valid_cells grid = [] then none
         else some ((valid_cells grid).sum / ((valid_cells grid).length : ℚ))) := by
  intro grid t stats h
  unfold identify_low_zones at h
  split at h
  · exact absurd h (by simp)
  · simp only [Except.ok.injEq] at h
    subst h
    refine ⟨rfl, low_count_eq grid t, nanmin_eq grid, nanmax_eq grid, ?_⟩
    show nanmean grid = _
    unfold nanmean
    rw [valid_count_eq, nansum_eq]
    by_cases hc : valid_cells grid = [] <;>
      simp [hc, List.length_eq_zero]

/-- Witness for C8 on the grid [50, NaN, 150] with threshold 100. -/
theorem zone_stats_nan_aware_witness :
    (ZoneStats.mk 3 1 (100/3) (some 50) (some 150) (some 100)).total_pixels =
        ([some 50, none, some 150] : List Cell).length ∧
      (ZoneStats.mk 3 1 (100/3) (some 50) (some 150) (some 100)).low_zone_pixels =
        ((valid_cells [some 50, none, some 150]).filter
          (fun v => decide (v < 100))).length ∧
      (ZoneStats.mk 3 1 (100/3) (some 50) (some 150) (some 100)).min_elevation =
        (valid_cells [some 50, none, some 150]).min? ∧
      (ZoneStats.mk 3 1 (100/3) (some 50) (some 150) (some 100)).max_elevation =
        (valid_cells [some 50, none, some 150]).max? ∧
      (ZoneStats.mk 3 1 (100/3) (some 50) (some 150) (some 100)).mean_elevation =
        (if valid_cells [some 50, none, some 150] = [] then none
         else some ((valid_cells [some 50, none, some 150]).sum /
          ((valid_cells [some 50, none, some 150]).length : ℚ))) :=
  zone_stats_nan_aware [some 50, none, some 150] 100
    (ZoneStats.mk 3 1 (100/3) (some 50) (some 150) (some 100)) (by norm_num [identify_low_zones, np_lt, nanmin, nanmax, nanmean, nansum, valid_count])

/-- C5 evidence: on a grid made entirely of NaN cells, `identify_low_zones`
returns a plain stats record (min/max/mean are the propagated NaN, the low
count 0) — no distinct empty-grid condition is signalled; on a zero-size
grid the unguarded `np.nanmin` reduction raises instead. -/
theorem all_nan_grid_returns_plain_stats :
    identify_low_zones [none, none] 100 =
      Except.ok (ZoneStats.mk 2 0 0 none none none) ∧
    identify_low_zones ([] : List Cell) 100 =
      Except.error "zero-size array to reduction operation fmin which has no identity" := by
  constructor
  · norm_num [identify_low_zones, np_lt, nanmin, nanmax, nanmean, nansum,
      valid_count]
  · rfl

/-- C6 evidence: the degenerate box (0,0,0,0) violates `BBox.valid`, yet
`get_elevation_zone` performs no validation: when the underlying read
yields an empty window it silently returns the empty grid, and when the
read raises, the catch-all handler returns `None` — never a validation
error. -/
theorem degenerate_bbox_no_validation_error :
    ¬ (BBox.mk 0 0 0 0).valid ∧
    get_elevation_zone (fun _ => ZoneFetchOutcome.grid []) (BBox.mk 0 0 0 0) =
      some [] ∧
    get_elevation_zone (fun _ => ZoneFetchOutcome.failure "read error")
      (BBox.mk 0 0 0 0) = none := by
  refine ⟨?_, rfl, rfl⟩
  intro h
  exact absurd h.1 (by norm_num)

/-- C10 counterexample: on the grid [NaN, 200] with threshold 100 the
reported percentage (0) does not understate the low-zone proportion among
valid cells — the two are equal, refuting the claim for grids with NaN
cells but no valid low cell. -/
theorem percentage_understates_counterexample :
    (none : Cell) ∈ ([none, some 200] : List Cell) ∧
    identify_low_zones [none, some 200] 100 =
      Except.ok (ZoneStats.mk 2 0 0 (some 200) (some 200) (some 200)) ∧
    ¬ (ZoneStats.mk 2 0 0 (some 200) (some 200) (some 200)).low_zone_percentage <
        valid_low_proportion [none, some 200] 100 := by
  refine ⟨List.mem_cons_self _ _, ?_, ?_⟩
  · norm_num [identify_low_zones, np_lt, nanmin, nanmax, nanmean, nansum,
      valid_count]
  · have h200 : ¬ (200:ℚ) < 100 := by norm_num
    simp [valid_low_proportion, valid_cells, h200]

/-- C10 amended: the percentage divides the low count by the raw grid size
(NaN cells included); with at least one valid cell it never exceeds the
proportion among valid cells, it strictly understates that proportion
exactly when the grid holds a NaN cell and at least one valid low cell,
and with no valid low cell both quantities are 0. -/
theorem percentage_raw_denominator :
    ∀ (grid : List Cell) (t : ℚ) (stats : ZoneStats),
      identify_low_zones grid t = Except.ok stats →
      stats.low_zone_percentage =
        (stats.low_zone_pixels : ℚ) / (stats.total_pixels : ℚ) * 100 ∧
      (valid_cells grid ≠ [] →
        stats.low_zone_percentage ≤ valid_low_proportion grid t) ∧
      (stats.low_zone_percentage < valid_low_proportion grid t ↔
        (none : Cell) ∈ grid ∧
          (valid_cells grid).filter (fun v => decide (v < t)) ≠ []) ∧
      ((valid_cells grid).filter (fun v => decide (v < t)) = [] →
        stats.low_zone_percentage = 0 ∧ valid_low_proportion grid t = 0) := by
  intro grid t stats h
  unfold identify_low_zones at h
  split at h
  · exact absurd h (by simp)
  · simp only [Except.ok.injEq] at h
    subst h
    have hL := low_count_eq grid t
    refine ⟨rfl, ?_, ⟨?_, ?_⟩, ?_⟩
    · intro hne
      have hV : (0:ℚ) < ((valid_cells grid).length : ℚ) := by
        exact_mod_cast List.length_pos.mpr hne
      have hT : (0:ℚ) < (grid.length : ℚ) := by
        exact_mod_cast Nat.lt_of_lt_of_le (List.length_pos.mpr hne)
          (valid_cells_length_le grid)
      have hVT : ((valid_cells grid).length : ℚ) ≤ (grid.length : ℚ) := by
        exact_mod_cast valid_cells_length_le grid
      have hLnn : (0:ℚ) ≤
          (((valid_cells grid).filter (fun v => decide (v < t))).length : ℚ) := by
        positivity
      show ((grid.filter (fun c => np_lt c t)).length : ℚ) /
          (grid.length : ℚ) * 100 ≤ valid_low_proportion grid t
      rw [hL]
      unfold valid_low_proportion
      rw [div_mul_eq_mul_div, div_le_div_iff₀ hT hV]
      nlinarith [mul_le_mul_of_nonneg_left hVT hLnn]
    · intro hlt
      have hlt' : ((grid.filter (fun c => np_lt c t)).length : ℚ) /
          (grid.length : ℚ) * 100 < valid_low_proportion grid t := hlt
      constructor
      · by_contra hmem
        have heq := no_nan_percentage_eq grid t hmem
        rw [heq] at hlt'
        exact lt_irrefl _ hlt'
      · by_contra hne
        have hf : (valid_cells grid).filter (fun v => decide (v < t)) = [] := hne
        have hzero : ((grid.filter (fun c => np_lt c t)).length : ℚ) /
            (grid.length : ℚ) * 100 = 0 := by
          rw [hL, hf]
          simp
        have hvlp : valid_low_proportion grid t = 0 := by
          unfold valid_low_proportion
          rw [hf]
          simp
        rw [hzero, hvlp] at hlt'
        exact lt_irrefl 0 hlt'
    · rintro ⟨hmem, hne⟩
      have hpos' : 0 <
          ((valid_cells grid).filter (fun v => decide (v < t))).length :=
        List.length_pos.mpr hne
      have hVpos : 0 < (valid_cells grid).length :=
        Nat.lt_of_lt_of_le hpos' (List.length_filter_le _ _)
      have hV : (0:ℚ) < ((valid_cells grid).length : ℚ) := by
        exact_mod_cast hVpos
      have hT : (0:ℚ) < (grid.length : ℚ) := by
        exact_mod_cast Nat.lt_of_lt_of_le hVpos (valid_cells_length_le grid)
      have hVT : ((valid_cells grid).length : ℚ) < (grid.length : ℚ) := by
        exact_mod_cast valid_cells_length_lt grid hmem
      have hLpos : (0:ℚ) <
          (((valid_cells grid).filter (fun v => decide (v < t))).length : ℚ) := by
        exact_mod_cast hpos'
      show ((grid.filter (fun c => np_lt c t)).length : ℚ) /
          (grid.length : ℚ) * 100 < valid_low_proportion grid t
      rw [hL]
      unfold valid_low_proportion
      rw [div_mul_eq_mul_div, div_lt_div_iff₀ hT hV]
      nlinarith [mul_lt_mul_of_pos_left hVT hLpos]
    · intro hf
      constructor
      · show ((grid.filter (fun c => np_lt c t)).length : ℚ) /
            (grid.length : ℚ) * 100 = 0
        rw [hL, hf]
        simp
      · unfold valid_low_proportion
        rw [hf]
        simp

/-- Witness for the amended C10 on the grid [NaN, 50] with threshold 100:
the reported percentage 50 strictly understates the 100 percent low
proportion among valid cells. -/
theorem percentage_raw_denominator_witness :
    (ZoneStats.mk 2 1 50 (some 50) (some 50) (some 50)).low_zone_percentage <
      valid_low_proportion [none, some 50] 100 :=
  (percentage_raw_denominator [none, some 50] 100
      (ZoneStats.mk 2 1 50 (some 50) (some 50) (some 50))
      (by norm_num [identify_low_zones, np_lt, nanmin, nanmax, nanmean,
        nansum, valid_count])).2.2.1.2
    ⟨List.mem_cons_self _ _, by norm_num [valid_cells]⟩

/-! Area risk aggregation (`analyze_populated_areas`). -/

/-- A building row of the input GeoDataFrame, reduced to what the loop
reads: its geometry (an abstract tag here) and the coordinates of its
centroid, at which the elevation is looked up. -/
structure Building where
  geometry : String
  centroid_x : ℚ
  centroid_y : ℚ
deriving DecidableEq

/-- One row of the GeoDataFrame built by `analyze_populated_areas`
(src lines 247-252). -/
structure AreaRiskResult where
  geometry : String
  risk_score : ℕ
  risk_level : RiskLevel
  elevation : ℚ
deriving DecidableEq

/-- `FloodRiskAnalyzer.analyze_populated_areas` (src lines 218-254): for
each building, scores its centroid with the placeholder waterway distance
500 and the shared precipitation; rows whose score dict carries the
`error` key are not appended. -/
def analyze_populated_areas (an : FloodRiskAnalyzer) :
    List Building → ℚ → List AreaRiskResult
  | [], _ => []
  | b :: rest, precipitation_24h =>
      match calculate_flood_risk_score an b.centroid_x b.centroid_y 500
          precipitation_24h with
      | .ok risk =>
          { geometry := b.geometry
            risk_score := risk.score
            risk_level := risk.risk_level
            elevation := risk.altitude_m } ::
            analyze_populated_areas an rest precipitation_24h
      | .error _ => analyze_populated_areas an rest precipitation_24h

/-- Spec-side predicate: the assessment of a building succeeds exactly
when its centroid elevation is available. -/
def elevation_available (an : FloodRiskAnalyzer) (b : Building) : Bool :=
  (get_elevation an b.centroid_x b.centroid_y).isSome

/-- Spec-side per-geometry record: the AreaRiskResult a successfully
assessed building contributes. (The `none` branch is never reached for
buildings kept by `elevation_available`.) -/
def building_risk_record (an : FloodRiskAnalyzer) (precipitation_24h : ℚ)
    (b : Building) : AreaRiskResult :=
  match get_elevation an b.centroid_x b.centroid_y with
  | some e =>
      let risk := score_point e 500 precipitation_24h b.centroid_x b.centroid_y
      { geometry := b.geometry
        risk_score := risk.score
        risk_level := risk.risk_level
        elevation := risk.altitude_m }
  | none =>
      { geometry := b.geometry
        risk_score := 0
        risk_level := RiskLevel.FAIBLE
        elevation := 0 }

/-- C7: the aggregator output is exactly one record per building whose
assessment succeeds, in input order — buildings with unavailable elevation
are skipped and the batch itself always completes with the remaining
rows. -/
theorem analyze_populated_areas_skips_unavailable :
    ∀ (an : FloodRiskAnalyzer) (buildings : List Building) (p : ℚ),
      analyze_populated_areas an buildings p =
        (buildings.filter (elevation_available an)).map
          (building_risk_record an p) := by
  intro an buildings p
  induction buildings with
  | nil => rfl
  | cons b rest ih =>
      cases he : get_elevation an b.centroid_x b.centroid_y with
      | none =>
          simp [analyze_populated_areas, calculate_flood_risk_score, he,
            List.filter_cons, elevation_available, ih]
      | some e =>
          simp [analyze_populated_areas, calculate_flood_risk_score, he,
            List.filter_cons, elevation_available, building_risk_record, ih]

end FloodRisk
